import Mathlib

/-!
Verification development for the "Collect Smole Objects" Blender addon.

The Python sources (collect_smole_objects/{core,utils,analysis}.py) are
shallowly embedded below.  Scalar volumes are modelled by `ℚ`; the two
places where the source takes a square root (`std_dev`, gap thresholds)
are modelled by `Real.sqrt`.  The Blender collaborators that the core
consumes (bmesh volume computation, the scene/collection graph) are
modelled as explicit data, following the specification where the
collaborator code is not part of the repository.
-/

/-! ## Geometry: vectors, affine transforms, meshes -/

/-- A 3D vector with rational coordinates. -/
structure Vec3 where
  x : ℚ
  y : ℚ
  z : ℚ
deriving DecidableEq

def Vec3.zero : Vec3 := ⟨0, 0, 0⟩

def Vec3.add (a b : Vec3) : Vec3 := ⟨a.x + b.x, a.y + b.y, a.z + b.z⟩

def Vec3.smul (s : ℚ) (a : Vec3) : Vec3 := ⟨s * a.x, s * a.y, s * a.z⟩

def dot (a b : Vec3) : ℚ := a.x * b.x + a.y * b.y + a.z * b.z

def cross (a b : Vec3) : Vec3 :=
  ⟨a.y * b.z - a.z * b.y, a.z * b.x - a.x * b.z, a.x * b.y - a.y * b.x⟩

/-- Scalar triple product: six times the signed volume of the tetrahedron
spanned by `a`, `b`, `c` and the origin. -/
def det3 (a b c : Vec3) : ℚ := dot a (cross b c)

/-- An affine 4x4 world transform (`obj.matrix_world`), stored as the three
upper rows; the bottom row of an object transform is `0 0 0 1`. -/
structure Mat4 where
  a11 : ℚ
  a12 : ℚ
  a13 : ℚ
  a14 : ℚ
  a21 : ℚ
  a22 : ℚ
  a23 : ℚ
  a24 : ℚ
  a31 : ℚ
  a32 : ℚ
  a33 : ℚ
  a34 : ℚ
deriving DecidableEq

def applyMat4 (M : Mat4) (v : Vec3) : Vec3 :=
  ⟨M.a11 * v.x + M.a12 * v.y + M.a13 * v.z + M.a14,
   M.a21 * v.x + M.a22 * v.y + M.a23 * v.z + M.a24,
   M.a31 * v.x + M.a32 * v.y + M.a33 * v.z + M.a34⟩

/-- Composing a pure translation by `t` after the transform `M`. -/
def translateMat (t : Vec3) (M : Mat4) : Mat4 :=
  { M with a14 := M.a14 + t.x, a24 := M.a24 + t.y, a34 := M.a34 + t.z }

/-- Composing a uniform scale by `s` after the transform `M`. -/
def scaleMat (s : ℚ) (M : Mat4) : Mat4 :=
  ⟨s * M.a11, s * M.a12, s * M.a13, s * M.a14,
   s * M.a21, s * M.a22, s * M.a23, s * M.a24,
   s * M.a31, s * M.a32, s * M.a33, s * M.a34⟩

/-- An evaluated mesh: vertex positions plus faces given as vertex-index
lists (possibly non-triangular). -/
structure Mesh where
  vertices : List Vec3
  faces : List (List ℕ)
deriving DecidableEq

/-- `mesh.transform(matrix)`: apply an affine matrix to every vertex. -/
def Mesh.transform (m : Mesh) (M : Mat4) : Mesh :=
  { m with vertices := m.vertices.map (applyMat4 M) }

def Mesh.mapVerts (f : Vec3 → Vec3) (m : Mesh) : Mesh :=
  { m with vertices := m.vertices.map f }

/-- All face indices of the mesh are in range (the MeshSample invariant). -/
def validFaces (m : Mesh) : Prop :=
  ∀ f ∈ m.faces, ∀ i ∈ f, i < m.vertices.length

instance (m : Mesh) : Decidable (validFaces m) := by
  unfold validFaces; infer_instance

/-- Sum of signed tetrahedron contributions of the fan triangulation
`(v0, a, b)` over consecutive pairs of the remaining face vertices. -/
def fanSum (v0 : Vec3) : List Vec3 → ℚ
  | a :: b :: rest => det3 v0 a b + fanSum v0 (b :: rest)
  | _ => 0

/-- Contribution of one face to six times the mesh volume. -/
def faceContribution (verts : List Vec3) (face : List ℕ) : ℚ :=
  match face.map (fun i => verts.getD i Vec3.zero) with
  | v0 :: rest => fanSum v0 rest
  | [] => 0

/-- Modelled from the spec: `bm.calc_volume()` (the BMesh collaborator,
whose code is not in src/).  "Compute the enclosed volume via the
divergence-theorem / signed-tetrahedra method: sum, over every face, the
signed volume of the tetrahedron formed by the face's vertices and the
origin (triangulating non-triangular faces by fan decomposition first)." -/
def calc_volume (m : Mesh) : ℚ :=
  ((m.faces.map (faceContribution m.vertices)).sum) / 6

/-- Sum of the edge cross products `a×b + b×c + c×a` of one fan triangle. -/
def triCross (a b c : Vec3) : Vec3 :=
  Vec3.add (cross a b) (Vec3.add (cross b c) (cross c a))

def fanCross (v0 : Vec3) : List Vec3 → Vec3
  | a :: b :: rest => Vec3.add (triCross v0 a b) (fanCross v0 (b :: rest))
  | _ => Vec3.zero

def faceCross (verts : List Vec3) (face : List ℕ) : Vec3 :=
  match face.map (fun i => verts.getD i Vec3.zero) with
  | v0 :: rest => fanCross v0 rest
  | [] => Vec3.zero

def vsum (l : List Vec3) : Vec3 := l.foldr Vec3.add Vec3.zero

/-- Total directed-edge cross-product sum of the fan triangulation.  For a
closed (boundary-free, consistently wound) mesh every directed edge is
matched by its reverse, so this sum vanishes. -/
def edgeSum (m : Mesh) : Vec3 := vsum (m.faces.map (faceCross m.vertices))

/-- The shallow closedness condition under which the signed-tetrahedra
volume is translation invariant. -/
def MeshClosed (m : Mesh) : Prop := edgeSum m = Vec3.zero

instance (m : Mesh) : Decidable (MeshClosed m) := by
  unfold MeshClosed; infer_instance

/-! ## Objects and measurement (`utils.py`, `core.py`) -/

inductive ObjType where
  | MESH : ObjType
  | OTHER : ObjType
deriving DecidableEq

/-- A Blender object as consumed by the core: its name, its `obj.type`,
its evaluated (depsgraph-resolved, local-space) mesh if any, and its
world transform. -/
structure Object where
  name : String
  otype : ObjType
  evalMesh : Option Mesh
  matrix_world : Mat4
deriving DecidableEq

/-- `utils.validate_object_is_mesh`. -/
def validate_object_is_mesh (obj : Object) : Bool × String :=
  if obj.otype ≠ ObjType.MESH then
    (false, "Selected object " ++ obj.name ++ " is not a MESH. Please select a mesh object.")
  else
    (true, "")

/-- `utils.validate_mesh_not_empty`: obtain the evaluated mesh; reject
missing mesh data and empty vertex lists. -/
def validate_mesh_not_empty (obj : Object) : Bool × String × Option Mesh :=
  match obj.evalMesh with
  | none => (false, "Object " ++ obj.name ++ " has no mesh data.", none)
  | some mesh =>
    if mesh.vertices.length = 0 then
      (false, "Object " ++ obj.name ++ " has no vertices (empty mesh).", none)
    else
      (true, "", some mesh)

/-- `utils.validate_volume`: a computed volume must be strictly positive. -/
def validate_volume (volume : ℚ) (obj_name : String) : Bool × String :=
  if volume ≤ 0 then
    if volume = 0 then
      (false, "Object " ++ obj_name ++ " has zero volume (possibly 2D/planar geometry).")
    else
      (false, "Object " ++ obj_name ++ " has invalid negative volume.")
  else
    (true, "")

/-- `core.calculate_object_volume`: returns `(success, volume, error)`. -/
def calculate_object_volume (obj : Object) : Bool × ℚ × String :=
  let v1 := validate_object_is_mesh obj
  if v1.1 = false then (false, 0, v1.2)
  else
    match validate_mesh_not_empty obj with
    | (false, e, _) => (false, 0, e)
    | (true, _, none) => (false, 0, "")
    | (true, _, some mesh) =>
      let volume := calc_volume (mesh.transform obj.matrix_world)
      let vv := validate_volume volume obj.name
      if vv.1 = false then (false, 0, vv.2)
      else (true, volume, "")

/-- The raw measured scalar (the value handed to `validate_volume`),
when the geometric stages succeed. -/
def computedVolume (obj : Object) : Option ℚ :=
  if obj.otype = ObjType.MESH then
    match validate_mesh_not_empty obj with
    | (true, _, some mesh) => some (calc_volume (mesh.transform obj.matrix_world))
    | _ => none
  else
    none

/-! ## Scene graph and collections (external collaborator state) -/

/-- A Blender collection: its name, the names of the objects linked to it
(`collection.objects`), and its viewport visibility flag. -/
structure Collection where
  name : String
  members : List String
  hide_viewport : Bool
deriving DecidableEq

/-- The mutable collaborator state the partition step touches:
`bpy.data.objects`, `bpy.data.collections`, and the names linked under
`context.scene.collection.children`. -/
structure Scene where
  objects : List Object
  collections : List Collection
  sceneChildren : List String
deriving DecidableEq

/-- `utils.get_or_create_collection`: return the index of the existing
collection of that name, or append a new one, link it into the scene
children and mark it hidden.  (Python returns the collection object
itself; here it is identified by its index in `collections`.) -/
def get_or_create_collection (collection_name : String) (s : Scene)
    (hide_viewport : Bool := true) : ℕ × Scene :=
  match s.collections.findIdx? (fun c => c.name == collection_name) with
  | some i => (i, s)
  | none =>
    (s.collections.length,
     { s with
        collections := s.collections ++ [⟨collection_name, [], hide_viewport⟩],
        sceneChildren := s.sceneChildren ++ [collection_name] })

/-- `utils.move_object_to_collection`: unlink the object from every
collection it belongs to, then link it to the target collection. -/
def move_object_to_collection (objName : String) (target : ℕ) (s : Scene) : Scene :=
  { s with
      collections := s.collections.mapIdx (fun i c =>
        let unlinked : Collection := { c with members := c.members.filter (fun n => n != objName) }
        if i = target then { unlinked with members := unlinked.members ++ [objName] }
        else unlinked) }

/-- The result dict of `core.collect_smaller_objects`. -/
structure CollectResults where
  success : Bool
  collected_count : ℕ
  skipped_count : ℕ
  skipped_objects : List (String × String)
  error_message : String
deriving DecidableEq

/-- One iteration of the loop body of `core.collect_smaller_objects`. -/
def collectStep (target : ℕ) (reference_obj : Option Object) (threshold_volume : ℚ)
    (acc : CollectResults × Scene) (obj : Object) : CollectResults × Scene :=
  if obj.otype ≠ ObjType.MESH then acc
  else if some obj = reference_obj then acc
  else
    let r := calculate_object_volume obj
    if r.1 = false then
      ({ acc.1 with
          skipped_count := acc.1.skipped_count + 1,
          skipped_objects := acc.1.skipped_objects ++ [(obj.name, r.2.2)] },
       acc.2)
    else if r.2.1 < threshold_volume then
      ({ acc.1 with collected_count := acc.1.collected_count + 1 },
       move_object_to_collection obj.name target acc.2)
    else acc

/-- `core.collect_smaller_objects`: obtain-or-create the destination
collection, then walk all objects, skipping non-meshes and the reference
object, and move every successfully measured object whose volume is
strictly below the threshold. -/
def collect_smaller_objects (reference_obj : Option Object) (threshold_volume : ℚ)
    (s : Scene) (collection_name : String := "Littles") : CollectResults × Scene :=
  let init : CollectResults := ⟨true, 0, 0, [], ""⟩
  let tc := get_or_create_collection collection_name s
  s.objects.foldl (collectStep tc.1 reference_obj threshold_volume) (init, tc.2)

/-- The set of collection indices an object name is currently linked to. -/
def objMembership (s : Scene) (n : String) : List ℕ :=
  (List.range s.collections.length).filter
    (fun i => decide (n ∈ (s.collections.getD i ⟨"", [], true⟩).members))

/-! ## Statistics engine (`analysis.py`) -/

/-- The result dict of `analysis.analyze_scene`. -/
structure AnalyzeResults where
  total_objects : ℕ
  valid_objects : ℕ
  invalid_objects : ℕ
  invalid_reasons : List (String × String)
  min_volume : ℚ
  max_volume : ℚ
  mean_volume : ℚ
  median_volume : ℚ
  std_dev : ℝ
  percentiles : List (ℚ × ℚ)
  volumes : List (String × ℚ)

/-- The median block of `analyze_scene`: middle element, or the average of
the two central elements for an even count. -/
def medianOf (volume_values : List ℚ) : ℚ :=
  let n := volume_values.length
  if n % 2 = 0 then
    (volume_values.getD (n / 2 - 1) 0 + volume_values.getD (n / 2) 0) / 2
  else
    volume_values.getD (n / 2) 0

/-- The per-percentile body of `analysis.calculate_percentiles`: linear
interpolation at index `(p/100)*(n-1)`. -/
def percentileOf (sorted_values : List ℚ) (p : ℚ) : ℚ :=
  let n := sorted_values.length
  let idx : ℚ := (p / 100) * ((n : ℚ) - 1)
  let lower_idx : ℕ := (⌊idx⌋).toNat
  let upper_idx : ℕ := min (lower_idx + 1) (n - 1)
  let lower_val := sorted_values.getD lower_idx 0
  let upper_val := sorted_values.getD upper_idx 0
  let fraction : ℚ := idx - (lower_idx : ℚ)
  lower_val + fraction * (upper_val - lower_val)

/-- `analysis.calculate_percentiles`: the percentile table, keyed by the
requested percentile values. -/
def calculate_percentiles (sorted_values : List ℚ) (percentile_list : List ℚ) :
    List (ℚ × ℚ) :=
  if sorted_values = [] then []
  else percentile_list.map (fun p => (p, percentileOf sorted_values p))

/-- One iteration of the measurement loop of `analyze_scene`, accumulating
`(valid_volumes, valid_count, invalid_count, invalid_reasons)`. -/
def analyzeStep (acc : List (String × ℚ) × ℕ × ℕ × List (String × String))
    (obj : Object) : List (String × ℚ) × ℕ × ℕ × List (String × String) :=
  let r := calculate_object_volume obj
  if r.1 = true then
    (acc.1 ++ [(obj.name, r.2.1)], acc.2.1 + 1, acc.2.2.1, acc.2.2.2)
  else
    (acc.1, acc.2.1, acc.2.2.1 + 1, acc.2.2.2 ++ [(obj.name, r.2.2)])

/-- `analysis.analyze_scene`.  Sorting models Python's stable `list.sort`
by volume (`List.insertionSort` with a reflexive key order is stable). -/
noncomputable def analyze_scene (s : Scene) : AnalyzeResults :=
  let init : AnalyzeResults := ⟨0, 0, 0, [], 0, 0, 0, 0, 0, [], []⟩
  let mesh_objects := s.objects.filter (fun o => decide (o.otype = ObjType.MESH))
  if mesh_objects.length = 0 then init
  else
    let acc := mesh_objects.foldl analyzeStep ([], 0, 0, [])
    let results1 := { init with
        total_objects := mesh_objects.length,
        valid_objects := acc.2.1,
        invalid_objects := acc.2.2.1,
        invalid_reasons := acc.2.2.2 }
    if acc.2.1 = 0 then results1
    else
      let sorted := List.insertionSort (fun a b => a.2 ≤ b.2) acc.1
      let volume_values := sorted.map (fun p => p.2)
      let n := volume_values.length
      let mean := volume_values.sum / (n : ℚ)
      let variance := ((volume_values.map (fun v => (v - mean) ^ 2)).sum) / (n : ℚ)
      { results1 with
          volumes := sorted,
          min_volume := volume_values.getD 0 0,
          max_volume := volume_values.getLastD 0,
          mean_volume := mean,
          median_volume := medianOf volume_values,
          std_dev := Real.sqrt ((variance : ℚ) : ℝ),
          percentiles := calculate_percentiles volume_values [10, 20, 25, 50, 75, 80, 90] }

/-- The candidate-collecting loop of `analysis.detect_natural_gaps` over
consecutive entries of the sorted `(name, volume)` list. -/
noncomputable def gapsLoop (min_gap_ratio : ℚ) : List (String × ℚ) → List (ℝ × ℚ)
  | a :: b :: rest =>
    (if a.2 ≤ 0 then []
     else if b.2 / a.2 ≥ min_gap_ratio then
       [(Real.sqrt (((a.2 * b.2 : ℚ) : ℝ)), b.2 / a.2)]
     else []) ++ gapsLoop min_gap_ratio (b :: rest)
  | _ => []

/-- `analysis.detect_natural_gaps`: candidate gaps at the geometric mean of
each qualifying consecutive pair, sorted by ratio descending, top 5. -/
noncomputable def detect_natural_gaps (volumes_list : List (String × ℚ))
    (min_gap_ratio : ℚ := 3) : List (ℝ × ℚ) :=
  if volumes_list.length < 2 then []
  else
    (List.insertionSort (fun a b => b.2 ≤ a.2) (gapsLoop min_gap_ratio volumes_list)).take 5

/-- Following the spec's wording for natural-gap detection: walk adjacent
pairs in the sorted population; for each pair where `prev > 0` and
`next/prev ≥ minGapRatio`, record a gap at `sqrt(prev*next)` with weight
the ratio; return the top 5 by ratio descending. -/
noncomputable def naturalGapsSpec (volumes_list : List (String × ℚ))
    (min_gap_ratio : ℚ) : List (ℝ × ℚ) :=
  (List.insertionSort (fun a b => b.2 ≤ a.2)
    (((volumes_list.zip volumes_list.tail).filter
        (fun pq => decide (0 < pq.1.2 ∧ pq.2.2 / pq.1.2 ≥ min_gap_ratio))).map
      (fun pq => (Real.sqrt (((pq.1.2 * pq.2.2 : ℚ) : ℝ)), pq.2.2 / pq.1.2)))).take 5

/-! ## Threshold resolver (`core.py`) -/

/-- The result dict of `core.process_percentage_method`. -/
structure PercentageResults where
  success : Bool
  threshold_volume : ℚ
  base_volume : ℚ
  error_message : String

/-- `core.process_percentage_method`: threshold as a percentage of the
largest or average volume. -/
noncomputable def process_percentage_method (percentage : ℚ) (base : String)
    (s : Scene) : PercentageResults :=
  if percentage ≤ 0 ∨ percentage > 100 then
    ⟨false, 0, 0, "Invalid percentage. Must be between 0 and 100."⟩
  else
    let a := analyze_scene s
    if a.valid_objects = 0 then
      ⟨false, 0, 0, "No valid mesh objects found in scene."⟩
    else if base == "largest" then
      ⟨true, a.max_volume * (percentage / 100), a.max_volume, ""⟩
    else if base == "average" then
      ⟨true, a.mean_volume * (percentage / 100), a.mean_volume, ""⟩
    else
      ⟨false, 0, 0, "Invalid base. Must be largest or average."⟩

/-- The result dict of `core.process_absolute_volume_method`. -/
structure AbsoluteResults where
  success : Bool
  threshold_volume : ℚ
  error_message : String
deriving DecidableEq

/-- `core.process_absolute_volume_method`: direct volume input. -/
def process_absolute_volume_method (volume_value : ℚ) : AbsoluteResults :=
  if volume_value ≤ 0 then
    ⟨false, 0, "Invalid volume. Must be positive."⟩
  else
    ⟨true, volume_value, ""⟩

/-- The result dict of `core.process_percentile_method`. -/
structure PercentileResults where
  success : Bool
  threshold_volume : ℚ
  objects_in_percentile : ℕ
  error_message : String

/-- `core.process_percentile_method`: threshold that collects the smallest
X% of objects. -/
noncomputable def process_percentile_method (percentile : ℚ) (s : Scene) :
    PercentileResults :=
  if percentile ≤ 0 ∨ percentile > 100 then
    ⟨false, 0, 0, "Invalid percentile. Must be between 0 and 100."⟩
  else
    let a := analyze_scene s
    if a.valid_objects = 0 then
      ⟨false, 0, 0, "No valid mesh objects found in scene."⟩
    else
      let threshold :=
        match a.percentiles.lookup percentile with
        | some t => t
        | none =>
          ((calculate_percentiles (a.volumes.map (fun p => p.2)) [percentile]).lookup
            percentile).getD 0
      let objects_count : ℕ := (⌊(percentile / 100) * (a.valid_objects : ℚ)⌋).toNat
      ⟨true, threshold, objects_count, ""⟩

/-! ## Claim C5: percentile(50) equals the median -/

/-- C5: for every non-empty volume population, the 50th percentile computed
by linear interpolation at index `(50/100)*(N-1)` equals the median
computed by the middle-element rule (average of the two central elements
for even N, middle element for odd N), exactly. -/
theorem c5_percentile50_eq_median (values : List ℚ) (h : values ≠ []) :
    percentileOf values 50 = medianOf values := by
  have hn : values.length ≠ 0 := by simpa using h
  unfold percentileOf medianOf
  rcases Nat.even_or_odd values.length with he | ho
  · obtain ⟨k, hk⟩ := he
    have hk1 : 1 ≤ k := by omega
    have hidx : ((50 : ℚ) / 100) * ((values.length : ℚ) - 1)
        = ((k - 1 : ℤ) : ℚ) + 1 / 2 := by
      rw [hk]; push_cast; ring
    have hfloor : ⌊((50 : ℚ) / 100) * ((values.length : ℚ) - 1)⌋ = k - 1 := by
      rw [hidx, Int.floor_int_add]
      norm_num
    have htn : ((k : ℤ) - 1).toNat = k - 1 := by omega
    have hmod : values.length % 2 = 0 := by omega
    have hdiv : values.length / 2 = k := by omega
    have hmin : min ((k - 1) + 1) (values.length - 1) = k := by omega
    have hfrac : ((50 : ℚ) / 100) * ((values.length : ℚ) - 1) - ((k - 1 : ℕ) : ℚ)
        = 1 / 2 := by
      rw [hidx]; push_cast [hk1]; ring
    simp only [hfloor, htn, hmin, hfrac, hmod, hdiv, if_pos]
    ring
  · obtain ⟨k, hk⟩ := ho
    have hidx : ((50 : ℚ) / 100) * ((values.length : ℚ) - 1) = ((k : ℤ) : ℚ) := by
      rw [hk]; push_cast; ring
    have hfloor : ⌊((50 : ℚ) / 100) * ((values.length : ℚ) - 1)⌋ = k := by
      rw [hidx, Int.floor_intCast]
    have htn : (k : ℤ).toNat = k := by omega
    have hmod : ¬ values.length % 2 = 0 := by omega
    have hdiv : values.length / 2 = k := by omega
    have hfrac : ((50 : ℚ) / 100) * ((values.length : ℚ) - 1) - ((k : ℕ) : ℚ) = 0 := by
      rw [hidx]; push_cast; ring
    simp only [hfloor, htn, hfrac, hmod, hdiv, if_neg, if_false]
    ring

/-- Witness for C5 at the concrete population `[1, 2]`. -/
theorem c5_percentile50_eq_median_witness :
    ([1, 2] : List ℚ) ≠ [] ∧ percentileOf [1, 2] 50 = medianOf [1, 2] :=
  ⟨by decide, c5_percentile50_eq_median [1, 2] (by decide)⟩

/-! ## Claim C6: parameter validation of threshold resolution -/

/-- C6: the percentage and percentile methods succeed exactly when the
value lies in (0, 100] and valid objects exist (and, for percentage, the
base tag is one of the two legal ones); the absolute method fails exactly
when the value is nonpositive, succeeding with the verbatim cutoff
otherwise; failures carry no partial threshold. -/
theorem c6_threshold_validation :
    (∀ v : ℚ,
      ((process_absolute_volume_method v).success = true ↔ 0 < v)
      ∧ (0 < v → process_absolute_volume_method v = ⟨true, v, ""⟩)
      ∧ ((process_absolute_volume_method v).success = false →
          (process_absolute_volume_method v).threshold_volume = 0))
    ∧ (process_absolute_volume_method (-5)).success = false
    ∧ process_absolute_volume_method 5 = ⟨true, 5, ""⟩
    ∧ (∀ (p : ℚ) (base : String) (s : Scene),
        ((process_percentage_method p base s).success = true ↔
          (0 < p ∧ p ≤ 100 ∧ (analyze_scene s).valid_objects ≠ 0
            ∧ (base = "largest" ∨ base = "average")))
        ∧ ((process_percentage_method p base s).success = false →
            (process_percentage_method p base s).threshold_volume = 0))
    ∧ (∀ (p : ℚ) (s : Scene),
        ((process_percentile_method p s).success = true ↔
          (0 < p ∧ p ≤ 100 ∧ (analyze_scene s).valid_objects ≠ 0))
        ∧ ((process_percentile_method p s).success = false →
            (process_percentile_method p s).threshold_volume = 0)) := by
  refine ⟨?_, ?_, ?_, ?_, ?_⟩
  · intro v
    unfold process_absolute_volume_method
    by_cases h : v ≤ 0
    · rw [if_pos h]
      refine ⟨?_, ?_, ?_⟩
      · simp only [Bool.false_eq_true, false_iff, not_lt]
        exact h
      · intro hv
        exact absurd hv (not_lt.mpr h)
      · intro _
        rfl
    · rw [if_neg h]
      push_neg at h
      refine ⟨?_, ?_, ?_⟩
      · simp only [true_iff]
        exact h
      · intro _
        rfl
      · intro hf
        simp at hf
  · unfold process_absolute_volume_method
    norm_num
  · unfold process_absolute_volume_method
    norm_num
  · intro p base s
    unfold process_percentage_method
    by_cases h1 : p ≤ 0 ∨ p > 100
    · rw [if_pos h1]
      constructor
      · simp only [Bool.false_eq_true, false_iff]
        intro hc
        rcases h1 with h | h
        · linarith [hc.1]
        · linarith [hc.2.1]
      · intro _
        rfl
    · rw [if_neg h1]
      push_neg at h1
      by_cases h2 : (analyze_scene s).valid_objects = 0
      · rw [if_pos h2]
        constructor
        · simp only [Bool.false_eq_true, false_iff]
          intro hc
          exact hc.2.2.1 h2
        · intro _
          rfl
      · rw [if_neg h2]
        by_cases hb1 : base = "largest"
        · rw [if_pos (by simpa using hb1)]
          constructor
          · simp only [true_iff]
            exact ⟨h1.1, h1.2, h2, Or.inl hb1⟩
          · intro hf
            simp at hf
        · rw [if_neg (by simpa using hb1)]
          by_cases hb2 : base = "average"
          · rw [if_pos (by simpa using hb2)]
            constructor
            · simp only [true_iff]
              exact ⟨h1.1, h1.2, h2, Or.inr hb2⟩
            · intro hf
              simp at hf
          · rw [if_neg (by simpa using hb2)]
            constructor
            · simp only [Bool.false_eq_true, false_iff]
              intro hc
              rcases hc.2.2.2 with h | h
              · exact hb1 h
              · exact hb2 h
            · intro _
              rfl
  · intro p s
    unfold process_percentile_method
    by_cases h1 : p ≤ 0 ∨ p > 100
    · rw [if_pos h1]
      constructor
      · simp only [Bool.false_eq_true, false_iff]
        intro hc
        rcases h1 with h | h
        · linarith [hc.1]
        · linarith [hc.2.1]
      · intro _
        rfl
    · rw [if_neg h1]
      push_neg at h1
      by_cases h2 : (analyze_scene s).valid_objects = 0
      · rw [if_pos h2]
        constructor
        · simp only [Bool.false_eq_true, false_iff]
          intro hc
          exact hc.2.2 h2
        · intro _
          rfl
      · rw [if_neg h2]
        constructor
        · simp only [true_iff]
          exact ⟨h1.1, h1.2, h2⟩
        · intro hf
          simp at hf

/-- Witness for C6: the absolute method at the concrete value 5. -/
theorem c6_threshold_validation_witness :
    (0 : ℚ) < 5 ∧ process_absolute_volume_method 5 = ⟨true, 5, ""⟩ :=
  ⟨by norm_num, (c6_threshold_validation.1 5).2.1 (by norm_num)⟩

/-! ## Claim C2: success iff strictly positive volume -/

/-- C2: `calculate_object_volume` succeeds only with a strictly positive
volume, and whenever the computed volume scalar is `≤ 0` (zero and
negative alike) the measurement fails. -/
theorem c2_volume_validation (obj : Object) :
    ((calculate_object_volume obj).1 = true → 0 < (calculate_object_volume obj).2.1)
    ∧ (∀ v : ℚ, computedVolume obj = some v → v ≤ 0 →
        (calculate_object_volume obj).1 = false) := by
  by_cases hm : obj.otype = ObjType.MESH
  · cases hEM : obj.evalMesh with
    | none =>
      simp [calculate_object_volume, computedVolume, validate_object_is_mesh,
        validate_mesh_not_empty, hm, hEM]
    | some mesh =>
      by_cases hL : mesh.vertices.length = 0
      · simp [calculate_object_volume, computedVolume, validate_object_is_mesh,
          validate_mesh_not_empty, hm, hEM, hL]
      · have hvalf : ∀ (v : ℚ) (nm : String), (validate_volume v nm).1 = false ↔ v ≤ 0 := by
          intro v nm
          unfold validate_volume
          split_ifs with h h0
          · simpa using h
          · simpa using h
          · simpa using h
        have hred : calculate_object_volume obj =
            (if (validate_volume (calc_volume (mesh.transform obj.matrix_world)) obj.name).1 = false
             then (false, 0,
               (validate_volume (calc_volume (mesh.transform obj.matrix_world)) obj.name).2)
             else (true, calc_volume (mesh.transform obj.matrix_world), "")) := by
          simp [calculate_object_volume, validate_object_is_mesh,
            validate_mesh_not_empty, hm, hEM, hL]
        have hcvo : computedVolume obj = some (calc_volume (mesh.transform obj.matrix_world)) := by
          simp [computedVolume, validate_mesh_not_empty, hm, hEM, hL]
        constructor
        · intro h
          rw [hred] at h ⊢
          by_cases hf : (validate_volume (calc_volume (mesh.transform obj.matrix_world)) obj.name).1 = false
          · rw [if_pos hf] at h
            simp at h
          · have hpos : ¬ calc_volume (mesh.transform obj.matrix_world) ≤ 0 :=
              fun hle => hf ((hvalf _ _).mpr hle)
            push_neg at hpos
            rw [if_neg hf]
            simpa using hpos
        · intro v hcv hvle
          have hveq : v = calc_volume (mesh.transform obj.matrix_world) := by
            rw [hcvo] at hcv
            exact (Option.some_inj.mp hcv).symm
          rw [hred, if_pos ((hvalf _ _).mpr (hveq ▸ hvle))]
  · simp [calculate_object_volume, computedVolume, validate_object_is_mesh, hm]

/-- Identity world transform. -/
def idMat4 : Mat4 := ⟨1, 0, 0, 0, 0, 1, 0, 0, 0, 0, 1, 0⟩

/-- A flat (planar) quad: degenerate geometry with zero enclosed volume. -/
def flatObj : Object :=
  ⟨"Flat", ObjType.MESH,
   some ⟨[⟨0, 0, 0⟩, ⟨1, 0, 0⟩, ⟨1, 1, 0⟩, ⟨0, 1, 0⟩], [[0, 1, 2, 3]]⟩, idMat4⟩

/-- A closed tetrahedron with volume 1/6. -/
def tetraMesh : Mesh :=
  ⟨[⟨0, 0, 0⟩, ⟨1, 0, 0⟩, ⟨0, 1, 0⟩, ⟨0, 0, 1⟩],
   [[0, 2, 1], [0, 1, 3], [0, 3, 2], [1, 2, 3]]⟩

def tetraObj : Object := ⟨"Tet", ObjType.MESH, some tetraMesh, idMat4⟩

/-- Witness for C2: the flat quad measures zero and is rejected; the
tetrahedron succeeds, hence its volume is strictly positive. -/
theorem c2_volume_validation_witness :
    (calculate_object_volume flatObj).1 = false
    ∧ 0 < (calculate_object_volume tetraObj).2.1 :=
  ⟨(c2_volume_validation flatObj).2 0
      (by norm_num [computedVolume, validate_mesh_not_empty, flatObj, idMat4,
        calc_volume, faceContribution, fanSum, det3, dot, cross, Mesh.transform,
        applyMat4, Vec3.zero])
      (by norm_num),
   (c2_volume_validation tetraObj).1
      (by norm_num [calculate_object_volume, validate_object_is_mesh,
        validate_mesh_not_empty, validate_volume, tetraObj, tetraMesh, idMat4,
        calc_volume, faceContribution, fanSum, det3, dot, cross, Mesh.transform,
        applyMat4, Vec3.zero])⟩

/-! ## Claim C8: translation invariance and cubic scaling of the volume -/

lemma dot_zero_right (t : Vec3) : dot t Vec3.zero = 0 := by
  simp [dot, Vec3.zero]

lemma dot_add_right (t u w : Vec3) : dot t (u.add w) = dot t u + dot t w := by
  simp only [dot, Vec3.add]
  ring

/-- Multilinearity of the triple product: translating all three vertices
changes the contribution by `t · (a×b + b×c + c×a)`. -/
lemma det3_translate (a b c t : Vec3) :
    det3 (a.add t) (b.add t) (c.add t) = det3 a b c + dot t (triCross a b c) := by
  simp only [det3, dot, cross, triCross, Vec3.add]
  ring

lemma det3_smul (a b c : Vec3) (s : ℚ) :
    det3 (Vec3.smul s a) (Vec3.smul s b) (Vec3.smul s c) = s ^ 3 * det3 a b c := by
  simp only [det3, dot, cross, Vec3.smul]
  ring

theorem fanSum_translate (t v0 : Vec3) :
    ∀ l : List Vec3,
      fanSum (v0.add t) (l.map (fun v => v.add t))
        = fanSum v0 l + dot t (fanCross v0 l)
  | [] => by simp [fanSum, fanCross, dot_zero_right]
  | [a] => by simp [fanSum, fanCross, dot_zero_right]
  | a :: b :: rest => by
    have ih := fanSum_translate t v0 (b :: rest)
    simp only [List.map_cons] at ih ⊢
    simp only [fanSum, fanCross]
    rw [det3_translate, dot_add_right, ih]
    ring

theorem fanSum_smul (s : ℚ) (v0 : Vec3) :
    ∀ l : List Vec3,
      fanSum (Vec3.smul s v0) (l.map (Vec3.smul s)) = s ^ 3 * fanSum v0 l
  | [] => by simp [fanSum]
  | [a] => by simp [fanSum]
  | a :: b :: rest => by
    have ih := fanSum_smul s v0 (b :: rest)
    simp only [List.map_cons] at ih ⊢
    simp only [fanSum]
    rw [det3_smul, ih]
    ring

lemma getD_map_lt (f : Vec3 → Vec3) (l : List Vec3) (i : ℕ) (h : i < l.length) :
    (l.map f).getD i Vec3.zero = f (l.getD i Vec3.zero) := by
  rw [List.getD_eq_getElem _ _ (by simpa using h), List.getD_eq_getElem _ _ h,
    List.getElem_map]

lemma face_lookup_map (f : Vec3 → Vec3) (verts : List Vec3) (face : List ℕ)
    (hv : ∀ i ∈ face, i < verts.length) :
    face.map (fun i => (verts.map f).getD i Vec3.zero)
      = (face.map (fun i => verts.getD i Vec3.zero)).map f := by
  rw [List.map_map]
  apply List.map_congr_left
  intro i hi
  exact getD_map_lt f verts i (hv i hi)

lemma faceContribution_translate (verts : List Vec3) (t : Vec3) (face : List ℕ)
    (hv : ∀ i ∈ face, i < verts.length) :
    faceContribution (verts.map (fun v => v.add t)) face
      = faceContribution verts face + dot t (faceCross verts face) := by
  unfold faceContribution faceCross
  rw [face_lookup_map (fun v => v.add t) verts face hv]
  cases h : face.map (fun i => verts.getD i Vec3.zero) with
  | nil => simp [dot_zero_right]
  | cons v0 rest =>
    simp only [List.map_cons]
    exact fanSum_translate t v0 rest

lemma faceContribution_smul (verts : List Vec3) (s : ℚ) (face : List ℕ)
    (hv : ∀ i ∈ face, i < verts.length) :
    faceContribution (verts.map (Vec3.smul s)) face
      = s ^ 3 * faceContribution verts face := by
  unfold faceContribution
  rw [face_lookup_map (Vec3.smul s) verts face hv]
  cases h : face.map (fun i => verts.getD i Vec3.zero) with
  | nil => simp
  | cons v0 rest =>
    simp only [List.map_cons]
    exact fanSum_smul s v0 rest

lemma dot_vsum (t : Vec3) (l : List Vec3) :
    dot t (vsum l) = (l.map (dot t)).sum := by
  induction l with
  | nil => simp [vsum, dot_zero_right]
  | cons a l ih =>
    simp only [vsum, List.foldr_cons, List.map_cons, List.sum_cons] at ih ⊢
    rw [dot_add_right, ih]

lemma calc_volume_translate (m : Mesh) (t : Vec3) (hv : validFaces m)
    (hc : MeshClosed m) :
    calc_volume (Mesh.mapVerts (fun v => v.add t) m) = calc_volume m := by
  unfold calc_volume Mesh.mapVerts
  simp only
  have hmap : m.faces.map (faceContribution (m.vertices.map (fun v => v.add t)))
      = m.faces.map (fun f => faceContribution m.vertices f + dot t (faceCross m.vertices f)) :=
    List.map_congr_left (fun f hf => faceContribution_translate m.vertices t f (hv f hf))
  rw [hmap, List.sum_map_add]
  have hcross : (m.faces.map (fun f => dot t (faceCross m.vertices f))).sum
      = dot t (edgeSum m) := by
    unfold edgeSum
    rw [dot_vsum, List.map_map]
    rfl
  rw [hcross, hc, dot_zero_right, add_zero]

lemma calc_volume_smul (m : Mesh) (s : ℚ) (hv : validFaces m) :
    calc_volume (Mesh.mapVerts (Vec3.smul s) m) = s ^ 3 * calc_volume m := by
  unfold calc_volume Mesh.mapVerts
  simp only
  have hmap : m.faces.map (faceContribution (m.vertices.map (Vec3.smul s)))
      = m.faces.map (fun f => s ^ 3 * faceContribution m.vertices f) :=
    List.map_congr_left (fun f hf => faceContribution_smul m.vertices s f (hv f hf))
  rw [hmap]
  have : (m.faces.map (fun f => s ^ 3 * faceContribution m.vertices f)).sum
      = s ^ 3 * (m.faces.map (faceContribution m.vertices)).sum := by
    induction m.faces with
    | nil => simp
    | cons f fs ih =>
      simp only [List.map_cons, List.sum_cons, ih]
      ring
  rw [this]
  ring

lemma applyMat4_translateMat (t : Vec3) (M : Mat4) (v : Vec3) :
    applyMat4 (translateMat t M) v = (applyMat4 M v).add t := by
  simp only [applyMat4, translateMat, Vec3.add, Vec3.mk.injEq]
  refine ⟨by ring, by ring, by ring⟩

lemma applyMat4_scaleMat (s : ℚ) (M : Mat4) (v : Vec3) :
    applyMat4 (scaleMat s M) v = Vec3.smul s (applyMat4 M v) := by
  simp only [applyMat4, scaleMat, Vec3.smul, Vec3.mk.injEq]
  refine ⟨by ring, by ring, by ring⟩

lemma transform_translateMat (m : Mesh) (t : Vec3) (M : Mat4) :
    m.transform (translateMat t M) = Mesh.mapVerts (fun v => v.add t) (m.transform M) := by
  unfold Mesh.transform Mesh.mapVerts
  simp only [List.map_map, Mesh.mk.injEq, and_true]
  apply List.map_congr_left
  intro v _
  exact applyMat4_translateMat t M v

lemma transform_scaleMat (m : Mesh) (s : ℚ) (M : Mat4) :
    m.transform (scaleMat s M) = Mesh.mapVerts (Vec3.smul s) (m.transform M) := by
  unfold Mesh.transform Mesh.mapVerts
  simp only [List.map_map, Mesh.mk.injEq, and_true]
  apply List.map_congr_left
  intro v _
  exact applyMat4_scaleMat s M v

lemma validFaces_transform (m : Mesh) (M : Mat4) :
    validFaces (m.transform M) ↔ validFaces m := by
  simp [validFaces, Mesh.transform]

/-- C8: for a closed mesh, the measured world-space volume is invariant
under composing a pure translation onto the object's world transform, and
composing a uniform scale by `s` multiplies the measured volume by `s³`. -/
theorem c8_transform_invariance (obj : Object) (m : Mesh) (t : Vec3) (s : ℚ)
    (h2 : obj.evalMesh = some m) (hv : validFaces m)
    (hc : MeshClosed (m.transform obj.matrix_world)) :
    computedVolume { obj with matrix_world := translateMat t obj.matrix_world }
      = computedVolume obj
    ∧ computedVolume { obj with matrix_world := scaleMat s obj.matrix_world }
      = Option.map (fun v => s ^ 3 * v) (computedVolume obj) := by
  by_cases hm : obj.otype = ObjType.MESH
  · by_cases hL : m.vertices.length = 0
    · constructor <;>
        simp [computedVolume, validate_mesh_not_empty, hm, h2, hL]
    · have hvw : validFaces (m.transform obj.matrix_world) :=
        (validFaces_transform m obj.matrix_world).mpr hv
      constructor
      · simp only [computedVolume, validate_mesh_not_empty, hm, h2, hL, if_neg,
          if_pos, reduceIte]
        rw [transform_translateMat]
        rw [calc_volume_translate (m.transform obj.matrix_world) t hvw hc]
      · simp only [computedVolume, validate_mesh_not_empty, hm, h2, hL, if_neg,
          if_pos, reduceIte, Option.map_some']
        rw [transform_scaleMat]
        rw [calc_volume_smul (m.transform obj.matrix_world) s hvw]
  · constructor <;> simp [computedVolume, hm]

/-- Witness for C8: the closed tetrahedron, translated by `(1,2,3)` and
scaled by 2. -/
theorem c8_transform_invariance_witness :
    computedVolume { tetraObj with matrix_world := translateMat ⟨1, 2, 3⟩ tetraObj.matrix_world }
      = computedVolume tetraObj
    ∧ computedVolume { tetraObj with matrix_world := scaleMat 2 tetraObj.matrix_world }
      = Option.map (fun v => 2 ^ 3 * v) (computedVolume tetraObj) :=
  c8_transform_invariance tetraObj tetraMesh ⟨1, 2, 3⟩ 2 rfl (by decide)
    (by norm_num [MeshClosed, edgeSum, vsum, faceCross, fanCross, triCross, cross,
      Vec3.add, Vec3.zero, tetraMesh, tetraObj, idMat4, Mesh.transform, applyMat4])

/-! ## Claim C4: natural-gap detection -/

lemma gapsLoop_eq (r : ℚ) : ∀ l : List (String × ℚ),
    gapsLoop r l
      = ((l.zip l.tail).filter
          (fun pq => decide (0 < pq.1.2 ∧ pq.2.2 / pq.1.2 ≥ r))).map
          (fun pq => (Real.sqrt (((pq.1.2 * pq.2.2 : ℚ) : ℝ)), pq.2.2 / pq.1.2))
  | [] => by simp [gapsLoop]
  | [a] => by simp [gapsLoop]
  | a :: b :: rest => by
    have ih := gapsLoop_eq r (b :: rest)
    simp only [List.tail_cons] at ih
    simp only [gapsLoop, List.tail_cons, List.zip_cons_cons, List.filter_cons]
    by_cases h1 : a.2 ≤ 0
    · have hc : (decide (0 < a.2 ∧ b.2 / a.2 ≥ r)) = false := by
        simp [not_lt.mpr h1]
      rw [if_pos h1, hc]
      simp only [Bool.false_eq_true, if_false, List.nil_append]
      exact ih
    · push_neg at h1
      rw [if_neg (not_le.mpr h1)]
      by_cases h2 : b.2 / a.2 ≥ r
      · have hc : (decide (0 < a.2 ∧ b.2 / a.2 ≥ r)) = true := by
          simp [h1, h2]
        rw [if_pos h2, hc]
        simp only [if_true, List.map_cons, List.singleton_append]
        rw [ih]
      · have hc : (decide (0 < a.2 ∧ b.2 / a.2 ≥ r)) = false := by
          simp [h2]
        rw [if_neg h2, hc]
        simp only [Bool.false_eq_true, if_false, List.nil_append]
        exact ih

/-- C4: `detect_natural_gaps` returns exactly the spec's description —
the pairs `(sqrt(prev*next), next/prev)` over adjacent pairs with
`prev > 0` and ratio at least the minimum gap ratio, sorted by ratio
descending and truncated to five — and on the population
`[1, 1, 1, 100]` with ratio 3 it reports the single gap `(10, 100)`. -/
theorem c4_detect_gaps :
    (∀ (l : List (String × ℚ)) (r : ℚ), detect_natural_gaps l r = naturalGapsSpec l r)
    ∧ detect_natural_gaps [("A", 1), ("B", 1), ("C", 1), ("D", 100)] 3
        = [((10 : ℝ), (100 : ℚ))] := by
  constructor
  · intro l r
    unfold detect_natural_gaps naturalGapsSpec
    by_cases h : l.length < 2
    · rw [if_pos h]
      match l, h with
      | [], _ => simp [List.insertionSort]
      | [a], _ => simp [List.insertionSort]
    · rw [if_neg h, gapsLoop_eq]
  · have hs : Real.sqrt ((100 : ℝ)) = 10 := by
      have h100 : ((100 : ℝ)) = (10 : ℝ) ^ 2 := by norm_num
      rw [h100, Real.sqrt_sq (by norm_num)]
    norm_num [detect_natural_gaps, gapsLoop, List.insertionSort, List.orderedInsert, hs]

/-! ## Partition infrastructure: splitting the loop into report and scene -/

/-- The loop body's effect on the report alone. -/
def resultsStep (reference_obj : Option Object) (threshold_volume : ℚ)
    (r : CollectResults) (obj : Object) : CollectResults :=
  if obj.otype ≠ ObjType.MESH then r
  else if some obj = reference_obj then r
  else
    let cr := calculate_object_volume obj
    if cr.1 = false then
      { r with
          skipped_count := r.skipped_count + 1,
          skipped_objects := r.skipped_objects ++ [(obj.name, cr.2.2)] }
    else if cr.2.1 < threshold_volume then
      { r with collected_count := r.collected_count + 1 }
    else r

/-- The loop body's effect on the scene alone. -/
def sceneStep (target : ℕ) (reference_obj : Option Object) (threshold_volume : ℚ)
    (s : Scene) (obj : Object) : Scene :=
  if obj.otype ≠ ObjType.MESH then s
  else if some obj = reference_obj then s
  else
    let cr := calculate_object_volume obj
    if cr.1 = false then s
    else if cr.2.1 < threshold_volume then
      move_object_to_collection obj.name target s
    else s

lemma collectStep_eq (target : ℕ) (ref : Option Object) (c : ℚ)
    (acc : CollectResults × Scene) (obj : Object) :
    collectStep target ref c acc obj
      = (resultsStep ref c acc.1 obj, sceneStep target ref c acc.2 obj) := by
  rcases acc with ⟨r, s⟩
  unfold collectStep resultsStep sceneStep
  by_cases h1 : obj.otype ≠ ObjType.MESH
  · simp [h1]
  · by_cases h2 : some obj = ref
    · simp [h1, h2]
    · simp only [if_neg h1, if_neg h2]
      by_cases h3 : (calculate_object_volume obj).1 = false
      · simp [h3]
      · by_cases h4 : (calculate_object_volume obj).2.1 < c
        · simp [h3, h4]
        · simp [h3, h4]

lemma foldl_collectStep_split (target : ℕ) (ref : Option Object) (c : ℚ) :
    ∀ (l : List Object) (r0 : CollectResults) (s0 : Scene),
      l.foldl (collectStep target ref c) (r0, s0)
        = (l.foldl (resultsStep ref c) r0, l.foldl (sceneStep target ref c) s0)
  | [], r0, s0 => rfl
  | o :: l, r0, s0 => by
    rw [List.foldl_cons, List.foldl_cons, List.foldl_cons, collectStep_eq]
    exact foldl_collectStep_split target ref c l _ _

/-- An object that the loop records as skipped: a mesh, not the reference,
whose measurement fails. -/
def failP (ref : Option Object) (o : Object) : Prop :=
  o.otype = ObjType.MESH ∧ some o ≠ ref ∧ (calculate_object_volume o).1 = false

instance (ref : Option Object) (o : Object) : Decidable (failP ref o) := by
  unfold failP; infer_instance

/-- An object that the loop collects: a mesh, not the reference, measured
successfully with volume strictly below the threshold. -/
def collectedP (ref : Option Object) (c : ℚ) (o : Object) : Prop :=
  o.otype = ObjType.MESH ∧ some o ≠ ref
    ∧ (calculate_object_volume o).1 = true ∧ (calculate_object_volume o).2.1 < c

instance (ref : Option Object) (c : ℚ) (o : Object) : Decidable (collectedP ref c o) := by
  unfold collectedP; infer_instance

/-- The skipped-objects list the loop produces over a batch. -/
def skippedOf (ref : Option Object) (l : List Object) : List (String × String) :=
  (l.filter (fun o => decide (failP ref o))).map
    (fun o => (o.name, (calculate_object_volume o).2.2))

/-- The number of objects the loop collects over a batch. -/
def collectedCount (ref : Option Object) (c : ℚ) (l : List Object) : ℕ :=
  (l.filter (fun o => decide (collectedP ref c o))).length

lemma skippedOf_cons (ref : Option Object) (o : Object) (l : List Object) :
    skippedOf ref (o :: l)
      = (if failP ref o then [(o.name, (calculate_object_volume o).2.2)] else [])
          ++ skippedOf ref l := by
  unfold skippedOf
  rw [List.filter_cons]
  by_cases h : failP ref o <;> simp [h]

lemma collectedCount_cons (ref : Option Object) (c : ℚ) (o : Object) (l : List Object) :
    collectedCount ref c (o :: l)
      = (if collectedP ref c o then 1 else 0) + collectedCount ref c l := by
  unfold collectedCount
  rw [List.filter_cons]
  by_cases h : collectedP ref c o
  · simp [h]
    omega
  · simp [h]

lemma foldl_resultsStep (ref : Option Object) (c : ℚ) :
    ∀ (l : List Object) (r0 : CollectResults),
      l.foldl (resultsStep ref c) r0
        = ⟨r0.success, r0.collected_count + collectedCount ref c l,
           r0.skipped_count + (skippedOf ref l).length,
           r0.skipped_objects ++ skippedOf ref l, r0.error_message⟩
  | [], r0 => by simp [skippedOf, collectedCount]
  | o :: l, r0 => by
    rw [List.foldl_cons, foldl_resultsStep ref c l, skippedOf_cons, collectedCount_cons]
    by_cases h1 : o.otype = ObjType.MESH
    · by_cases h2 : some o = ref
      · have hf : ¬ failP ref o := fun h => h.2.1 h2
        have hc : ¬ collectedP ref c o := fun h => h.2.1 h2
        simp [resultsStep, h1, h2, hf, hc]
      · by_cases h3 : (calculate_object_volume o).1 = false
        · have hf : failP ref o := ⟨h1, h2, h3⟩
          have hc : ¬ collectedP ref c o := by
            intro h
            rw [h.2.2.1] at h3
            exact Bool.noConfusion h3
          simp only [resultsStep, if_neg (not_not.mpr h1), if_neg h2, if_pos h3,
            if_pos hf, if_neg hc]
          simp [CollectResults.mk.injEq, List.append_assoc]
          try omega
        · have htrue : (calculate_object_volume o).1 = true := by
            revert h3
            cases (calculate_object_volume o).1 <;> simp
          have hf : ¬ failP ref o := fun h => h3 h.2.2
          by_cases h4 : (calculate_object_volume o).2.1 < c
          · have hc : collectedP ref c o := ⟨h1, h2, htrue, h4⟩
            simp only [resultsStep, if_neg (not_not.mpr h1), if_neg h2, if_neg h3,
              if_pos h4, if_pos hc, if_neg hf]
            simp [CollectResults.mk.injEq, List.append_assoc]
            try omega
          · have hc : ¬ collectedP ref c o := fun h => h4 h.2.2.2
            simp only [resultsStep, if_neg (not_not.mpr h1), if_neg h2, if_neg h3,
              if_neg h4, if_neg hc, if_neg hf]
            simp [CollectResults.mk.injEq, List.append_assoc]
            try omega
    · have hf : ¬ failP ref o := fun h => h1 h.1
      have hc : ¬ collectedP ref c o := fun h => h1 h.1
      simp [resultsStep, h1, hf, hc]

/-! ## Claim C9: full characterization of the partition report -/

/-- C9: the report's skipped list consists of exactly the measurement
failures among mesh objects other than the reference (with their reasons,
in scene order), the counts are the lengths of those lists, and non-mesh
objects and the reference appear in no count: the collected count counts
exactly the measured-below-threshold mesh non-reference objects. -/
theorem c9_report_characterization (s : Scene) (ref : Option Object) (c : ℚ)
    (cn : String) :
    (collect_smaller_objects ref c s cn).1
      = ⟨true, collectedCount ref c s.objects, (skippedOf ref s.objects).length,
         skippedOf ref s.objects, ""⟩ := by
  unfold collect_smaller_objects
  rw [foldl_collectStep_split]
  simp only
  rw [foldl_resultsStep]
  simp

/-! ## Scene membership lemmas -/

/-- Default collection used by positional lookups. -/
def cdef : Collection := ⟨"", [], true⟩

lemma getD_mapIdx_lt {α : Type} (f : ℕ → α → α) (l : List α) (i : ℕ)
    (h : i < l.length) (d : α) :
    (l.mapIdx f).getD i d = f i (l.getD i d) := by
  rw [List.getD_eq_getElem _ _ (by simpa [List.length_mapIdx] using h),
    List.getD_eq_getElem _ _ h, List.getElem_mapIdx]

lemma objMembership_congr (s s' : Scene) (n : String)
    (hlen : s'.collections.length = s.collections.length)
    (hmem : ∀ i, i < s.collections.length →
      (n ∈ (s'.collections.getD i cdef).members ↔ n ∈ (s.collections.getD i cdef).members)) :
    objMembership s' n = objMembership s n := by
  unfold objMembership
  rw [hlen]
  apply List.filter_congr
  intro i hi
  rw [List.mem_range] at hi
  exact decide_eq_decide.mpr (hmem i hi)

lemma move_collections_length (m : String) (t : ℕ) (s : Scene) :
    (move_object_to_collection m t s).collections.length = s.collections.length := by
  simp [move_object_to_collection, List.length_mapIdx]

lemma objMembership_move_ne (m : String) (t : ℕ) (s : Scene) (n : String)
    (hne : n ≠ m) :
    objMembership (move_object_to_collection m t s) n = objMembership s n := by
  apply objMembership_congr
  · exact move_collections_length m t s
  · intro i hi
    unfold move_object_to_collection
    simp only
    rw [getD_mapIdx_lt _ _ _ hi]
    by_cases ht : i = t
    · simp [ht, List.mem_filter, List.mem_append, bne_iff_ne, hne]
    · simp [ht, List.mem_filter, bne_iff_ne, hne]

lemma range_filter_eq_single (k t : ℕ) :
    (List.range k).filter (fun i => decide (i = t)) = if t < k then [t] else [] := by
  induction k with
  | zero => simp
  | succ k ih =>
    rw [List.range_succ, List.filter_append, ih]
    by_cases h1 : t < k
    · have h2 : ¬ k = t := by omega
      simp [h1, h2, Nat.lt_succ_of_lt h1]
    · by_cases h2 : t = k
      · simp [h1, h2]
      · have h3 : ¬ t < k + 1 := by omega
        have h4 : ¬ k = t := by omega
        simp [h1, h3, h4]

lemma objMembership_move_self (m : String) (t : ℕ) (s : Scene)
    (h : t < s.collections.length) :
    objMembership (move_object_to_collection m t s) m = [t] := by
  unfold objMembership
  rw [move_collections_length]
  have hp : ∀ i ∈ List.range s.collections.length,
      (decide (m ∈ ((move_object_to_collection m t s).collections.getD i cdef).members))
        = decide (i = t) := by
    intro i hi
    rw [List.mem_range] at hi
    unfold move_object_to_collection
    simp only
    rw [getD_mapIdx_lt _ _ _ hi]
    by_cases ht : i = t
    · simp [ht, List.mem_append, List.mem_filter, bne_iff_ne]
    · simp [ht, List.mem_filter, bne_iff_ne]
  simp only [cdef] at hp
  rw [List.filter_congr hp, range_filter_eq_single, if_pos h]

lemma count_move_target (m : String) (t : ℕ) (s : Scene)
    (h : t < s.collections.length) :
    ((move_object_to_collection m t s).collections.getD t cdef).members.count m = 1 := by
  unfold move_object_to_collection
  simp only
  rw [getD_mapIdx_lt _ _ _ h]
  simp only [eq_self_iff_true, if_true]
  rw [List.count_append]
  have h0 : ((s.collections.getD t cdef).members.filter (fun n => n != m)).count m = 0 := by
    rw [List.count_eq_zero]
    intro hmem
    rw [List.mem_filter] at hmem
    exact absurd rfl (bne_iff_ne.mp hmem.2)
  rw [h0]
  simp

/-! ## Scene evolution through the partition loop -/

lemma sceneStep_cases (t : ℕ) (ref : Option Object) (c : ℚ) (s : Scene) (obj : Object) :
    sceneStep t ref c s obj = s
      ∨ (collectedP ref c obj
          ∧ sceneStep t ref c s obj = move_object_to_collection obj.name t s) := by
  unfold sceneStep
  by_cases h1 : obj.otype ≠ ObjType.MESH
  · left
    simp [h1]
  · by_cases h2 : some obj = ref
    · left
      simp [h1, h2]
    · by_cases h3 : (calculate_object_volume obj).1 = false
      · left
        simp [h1, h2, h3]
      · by_cases h4 : (calculate_object_volume obj).2.1 < c
        · right
          have htrue : (calculate_object_volume obj).1 = true := by
            revert h3
            cases (calculate_object_volume obj).1 <;> simp
          exact ⟨⟨not_not.mp h1, h2, htrue, h4⟩, by simp [h1, h2, h3, h4]⟩
        · left
          simp [h1, h2, h3, h4]

lemma sceneStep_not_collected (t : ℕ) (ref : Option Object) (c : ℚ) (s : Scene)
    (obj : Object) (h : ¬ collectedP ref c obj) :
    sceneStep t ref c s obj = s := by
  rcases sceneStep_cases t ref c s obj with hc | hc
  · exact hc
  · exact absurd hc.1 h

lemma sceneStep_collected (t : ℕ) (ref : Option Object) (c : ℚ) (s : Scene)
    (obj : Object) (h : collectedP ref c obj) :
    sceneStep t ref c s obj = move_object_to_collection obj.name t s := by
  obtain ⟨h1, h2, h3, h4⟩ := h
  unfold sceneStep
  rw [if_neg (fun hh => hh h1), if_neg h2]
  simp only
  rw [if_neg (by simp [h3]), if_pos h4]

lemma move_objects (m : String) (t : ℕ) (s : Scene) :
    (move_object_to_collection m t s).objects = s.objects := rfl

lemma move_children (m : String) (t : ℕ) (s : Scene) :
    (move_object_to_collection m t s).sceneChildren = s.sceneChildren := rfl

/-- The names and visibility flags of the scene's collections. -/
def collectionsShape (s : Scene) : List (String × Bool) :=
  s.collections.map (fun c => (c.name, c.hide_viewport))

lemma shape_move (m : String) (t : ℕ) (s : Scene) :
    collectionsShape (move_object_to_collection m t s) = collectionsShape s := by
  unfold collectionsShape move_object_to_collection
  simp only
  apply List.ext_getElem
  · simp [List.length_mapIdx]
  · intro i h1 h2
    simp only [List.getElem_map, List.getElem_mapIdx]
    by_cases h : i = t <;> simp [h]

lemma sceneStep_objects (t : ℕ) (ref : Option Object) (c : ℚ) (s : Scene) (obj : Object) :
    (sceneStep t ref c s obj).objects = s.objects := by
  rcases sceneStep_cases t ref c s obj with h | h
  · rw [h]
  · rw [h.2, move_objects]

lemma sceneStep_children (t : ℕ) (ref : Option Object) (c : ℚ) (s : Scene) (obj : Object) :
    (sceneStep t ref c s obj).sceneChildren = s.sceneChildren := by
  rcases sceneStep_cases t ref c s obj with h | h
  · rw [h]
  · rw [h.2, move_children]

lemma sceneStep_shape (t : ℕ) (ref : Option Object) (c : ℚ) (s : Scene) (obj : Object) :
    collectionsShape (sceneStep t ref c s obj) = collectionsShape s := by
  rcases sceneStep_cases t ref c s obj with h | h
  · rw [h]
  · rw [h.2, shape_move]

lemma foldl_sceneStep_objects (t : ℕ) (ref : Option Object) (c : ℚ) :
    ∀ (l : List Object) (s : Scene),
      (l.foldl (sceneStep t ref c) s).objects = s.objects
  | [], s => rfl
  | o :: l, s => by
    rw [List.foldl_cons, foldl_sceneStep_objects t ref c l, sceneStep_objects]

lemma foldl_sceneStep_children (t : ℕ) (ref : Option Object) (c : ℚ) :
    ∀ (l : List Object) (s : Scene),
      (l.foldl (sceneStep t ref c) s).sceneChildren = s.sceneChildren
  | [], s => rfl
  | o :: l, s => by
    rw [List.foldl_cons, foldl_sceneStep_children t ref c l, sceneStep_children]

lemma foldl_sceneStep_shape (t : ℕ) (ref : Option Object) (c : ℚ) :
    ∀ (l : List Object) (s : Scene),
      collectionsShape (l.foldl (sceneStep t ref c) s) = collectionsShape s
  | [], s => rfl
  | o :: l, s => by
    rw [List.foldl_cons, foldl_sceneStep_shape t ref c l, sceneStep_shape]

lemma shape_length (s : Scene) : (collectionsShape s).length = s.collections.length := by
  simp [collectionsShape]

lemma foldl_sceneStep_collections_length (t : ℕ) (ref : Option Object) (c : ℚ)
    (l : List Object) (s : Scene) :
    (l.foldl (sceneStep t ref c) s).collections.length = s.collections.length := by
  rw [← shape_length, foldl_sceneStep_shape, shape_length]

lemma objMembership_sceneStep_ne (t : ℕ) (ref : Option Object) (c : ℚ) (s : Scene)
    (obj : Object) (n : String) (hne : obj.name ≠ n) :
    objMembership (sceneStep t ref c s obj) n = objMembership s n := by
  rcases sceneStep_cases t ref c s obj with h | h
  · rw [h]
  · rw [h.2, objMembership_move_ne _ _ _ _ (Ne.symm hne)]

lemma foldl_sceneStep_no_collect (t : ℕ) (ref : Option Object) (c : ℚ) (n : String) :
    ∀ (l : List Object) (s : Scene),
      (∀ o ∈ l, collectedP ref c o → o.name ≠ n) →
      objMembership (l.foldl (sceneStep t ref c) s) n = objMembership s n
  | [], s, _ => rfl
  | o :: l, s, h => by
    rw [List.foldl_cons,
      foldl_sceneStep_no_collect t ref c n l _ (fun o' ho' => h o' (List.mem_cons_of_mem o ho'))]
    by_cases hcol : collectedP ref c o
    · exact objMembership_sceneStep_ne t ref c s o n (h o (List.mem_cons_self o l) hcol)
    · rw [sceneStep_not_collected t ref c s o hcol]

/-! ## Destination-collection lemmas -/

lemma gco_objects (cn : String) (s : Scene) (hv : Bool) :
    (get_or_create_collection cn s hv).2.objects = s.objects := by
  unfold get_or_create_collection
  cases h : s.collections.findIdx? (fun c => c.name == cn) <;> simp [h]

lemma gco_target_lt (cn : String) (s : Scene) (hv : Bool) :
    (get_or_create_collection cn s hv).1
      < (get_or_create_collection cn s hv).2.collections.length := by
  unfold get_or_create_collection
  cases h : s.collections.findIdx? (fun c => c.name == cn) with
  | none => simp [h]
  | some i =>
    rw [List.findIdx?_eq_guard_findIdx_lt] at h
    have := Option.guard_eq_some.mp h
    simp only [h]
    simp only [Option.guard_eq_some] at h
    omega

lemma objMembership_gco (cn : String) (s : Scene) (hv : Bool) (n : String) :
    objMembership (get_or_create_collection cn s hv).2 n = objMembership s n := by
  unfold get_or_create_collection
  cases h : s.collections.findIdx? (fun c => c.name == cn) with
  | some i => simp [h]
  | none =>
    simp only [h]
    unfold objMembership
    simp only [List.length_append, List.length_singleton]
    rw [List.range_succ, List.filter_append]
    have h1 : ∀ i ∈ List.range s.collections.length,
        (decide (n ∈ (((s.collections ++ [(⟨cn, [], hv⟩ : Collection)]).getD i
            (⟨"", [], true⟩ : Collection))).members))
          = decide (n ∈ ((s.collections.getD i (⟨"", [], true⟩ : Collection))).members) := by
      intro i hi
      rw [List.mem_range] at hi
      rw [List.getD_append _ _ _ _ hi]
    have h2 : List.filter
        (fun i => decide (n ∈ (((s.collections ++ [(⟨cn, [], hv⟩ : Collection)]).getD i
            (⟨"", [], true⟩ : Collection))).members)) [s.collections.length] = [] := by
      have hg : ((s.collections ++ [(⟨cn, [], hv⟩ : Collection)]).getD
          s.collections.length ⟨"", [], true⟩) = ⟨cn, [], hv⟩ := by
        rw [List.getD_eq_getElem _ _ (by simp)]
        exact List.getElem_concat_length _ _ _ rfl _
      simp [List.filter, hg]
    rw [List.filter_congr h1, h2, List.append_nil]

lemma gco_shape (cn : String) (s : Scene) (hv : Bool) :
    collectionsShape (get_or_create_collection cn s hv).2 = collectionsShape s
      ∨ collectionsShape (get_or_create_collection cn s hv).2
          = collectionsShape s ++ [(cn, hv)] := by
  unfold get_or_create_collection
  cases h : s.collections.findIdx? (fun c => c.name == cn) with
  | some i => left; simp [h]
  | none => right; simp [h, collectionsShape]

/-! ## Master characterization of membership after a partition run -/

lemma collect_membership (s : Scene) (ref : Option Object) (c : ℚ) (cn : String)
    (hnd : (s.objects.map Object.name).Nodup) (n : String) :
    objMembership (collect_smaller_objects ref c s cn).2 n =
      if ∃ o ∈ s.objects, o.name = n ∧ collectedP ref c o
      then [(get_or_create_collection cn s).1]
      else objMembership s n := by
  unfold collect_smaller_objects
  rw [foldl_collectStep_split]
  simp only
  by_cases hex : ∃ o ∈ s.objects, o.name = n ∧ collectedP ref c o
  · rw [if_pos hex]
    obtain ⟨o, ho, hon, hcol⟩ := hex
    subst hon
    obtain ⟨l1, l2, hsplit⟩ := List.append_of_mem ho
    have hnames : ((l1 ++ o :: l2).map Object.name).Nodup := by
      rw [← hsplit]
      exact hnd
    rw [List.map_append, List.map_cons, List.nodup_append] at hnames
    have hl2 : ∀ o' ∈ l2, collectedP ref c o' → o'.name ≠ o.name := by
      intro o' ho' _ hname
      exact (List.nodup_cons.mp hnames.2.1).1 (hname ▸ List.mem_map_of_mem Object.name ho')
    rw [hsplit, List.foldl_append, List.foldl_cons]
    rw [foldl_sceneStep_no_collect _ _ _ _ l2 _ hl2]
    rw [sceneStep_collected _ _ _ _ _ hcol]
    apply objMembership_move_self
    rw [foldl_sceneStep_collections_length]
    exact gco_target_lt cn s true
  · rw [if_neg hex]
    push_neg at hex
    rw [foldl_sceneStep_no_collect _ _ _ _ s.objects _
      (fun o ho hcol hname => hex o ho hname hcol)]
    exact objMembership_gco cn s true n

/-! ## Claim C1: strict-inequality partitioning -/

/-- C1: an object whose measurement succeeds with volume `v` is collected
(relocated into the destination collection, and only it) iff `v < c`
strictly; with `v = c` (so `¬ v < c`) its collection memberships are left
exactly as they were. -/
theorem c1_strict_inequality (s : Scene) (ref : Option Object) (c : ℚ) (cn : String)
    (o : Object) (v : ℚ)
    (hnd : (s.objects.map Object.name).Nodup)
    (hmem : o ∈ s.objects) (hmesh : o.otype = ObjType.MESH) (href : some o ≠ ref)
    (hvol : calculate_object_volume o = (true, v, "")) :
    (v < c →
      objMembership (collect_smaller_objects ref c s cn).2 o.name
        = [(get_or_create_collection cn s).1])
    ∧ (¬ v < c →
      objMembership (collect_smaller_objects ref c s cn).2 o.name
        = objMembership s o.name) := by
  constructor
  · intro hvc
    have hcol : collectedP ref c o := by
      refine ⟨hmesh, href, ?_, ?_⟩
      · rw [hvol]
      · rw [hvol]
        exact hvc
    rw [collect_membership s ref c cn hnd o.name,
      if_pos ⟨o, hmem, rfl, hcol⟩]
  · intro hvc
    have hne : ¬ ∃ o' ∈ s.objects, o'.name = o.name ∧ collectedP ref c o' := by
      rintro ⟨o', ho', hname, hcol⟩
      have heq : o' = o := List.inj_on_of_nodup_map hnd ho' hmem hname
      have hlt := hcol.2.2.2
      rw [heq, hvol] at hlt
      exact hvc hlt
    rw [collect_membership s ref c cn hnd o.name, if_neg hne]

/-- Witness for C1: a single closed tetrahedron of volume 1/6 against the
cutoff 1 gets collected into the freshly created destination. -/
theorem c1_strict_inequality_witness :
    (1 / 6 : ℚ) < 1
    ∧ objMembership (collect_smaller_objects none 1 ⟨[tetraObj], [], []⟩ "Littles").2
        tetraObj.name
        = [(get_or_create_collection "Littles" ⟨[tetraObj], [], []⟩).1] :=
  ⟨by norm_num,
   (c1_strict_inequality ⟨[tetraObj], [], []⟩ none 1 "Littles" tetraObj (1 / 6)
      (by simp) (List.mem_singleton.mpr rfl) rfl (by simp)
      (by norm_num [calculate_object_volume, validate_object_is_mesh,
        validate_mesh_not_empty, validate_volume, tetraObj, tetraMesh, idMat4,
        calc_volume, faceContribution, fanSum, det3, dot, cross, Mesh.transform,
        applyMat4, Vec3.zero])).1 (by norm_num)⟩

/-! ## Claim C3: idempotence of relocation and of a second Execute run -/

lemma move_idem (m : String) (t : ℕ) (s0 : Scene) :
    move_object_to_collection m t (move_object_to_collection m t s0)
      = move_object_to_collection m t s0 := by
  unfold move_object_to_collection
  congr 1
  apply List.ext_getElem
  · simp [List.length_mapIdx]
  · intro i h1 h2
    simp only [List.getElem_mapIdx]
    by_cases h : i = t
    · simp [h, List.filter_append, List.filter_filter, bne_self_eq_false]
    · simp [h, List.filter_filter]

lemma collect_objects_eq (ref : Option Object) (c : ℚ) (s : Scene) (cn : String) :
    (collect_smaller_objects ref c s cn).2.objects = s.objects := by
  unfold collect_smaller_objects
  rw [foldl_collectStep_split]
  simp only
  rw [foldl_sceneStep_objects, gco_objects]

lemma collect_shape_eq (ref : Option Object) (c : ℚ) (s : Scene) (cn : String) :
    collectionsShape (collect_smaller_objects ref c s cn).2
      = collectionsShape (get_or_create_collection cn s).2 := by
  unfold collect_smaller_objects
  rw [foldl_collectStep_split]
  simp only
  rw [foldl_sceneStep_shape]

lemma collect_children_eq (ref : Option Object) (c : ℚ) (s : Scene) (cn : String) :
    (collect_smaller_objects ref c s cn).2.sceneChildren
      = (get_or_create_collection cn s).2.sceneChildren := by
  unfold collect_smaller_objects
  rw [foldl_collectStep_split]
  simp only
  rw [foldl_sceneStep_children]

lemma findIdx?_via_shape (u : Scene) (cn : String) :
    u.collections.findIdx? (fun c => c.name == cn)
      = (collectionsShape u).findIdx? (fun pr => pr.1 == cn) := by
  unfold collectionsShape
  rw [List.findIdx?_map]
  rfl

lemma gco_fst_second (ref : Option Object) (c : ℚ) (s : Scene) (cn : String) :
    (get_or_create_collection cn (collect_smaller_objects ref c s cn).2).1
      = (get_or_create_collection cn s).1 := by
  have hsh := collect_shape_eq ref c s cn
  cases h : s.collections.findIdx? (fun c => c.name == cn) with
  | some i =>
    have hgco2 : (get_or_create_collection cn s).2 = s := by
      unfold get_or_create_collection
      simp [h]
    have hfind : (collect_smaller_objects ref c s cn).2.collections.findIdx?
        (fun c => c.name == cn) = some i := by
      rw [findIdx?_via_shape, hsh, hgco2, ← findIdx?_via_shape, h]
    unfold get_or_create_collection
    simp [hfind, h]
  | none =>
    have hgsh : collectionsShape (get_or_create_collection cn s).2
        = collectionsShape s ++ [(cn, true)] := by
      unfold get_or_create_collection
      simp [h, collectionsShape]
    have hnone : (collectionsShape s).findIdx? (fun pr => pr.1 == cn) = none := by
      rw [← findIdx?_via_shape, h]
    have hfind : (collect_smaller_objects ref c s cn).2.collections.findIdx?
        (fun c => c.name == cn) = some s.collections.length := by
      rw [findIdx?_via_shape, hsh, hgsh, List.findIdx?_append, hnone]
      simp [List.findIdx?_cons, shape_length]
    unfold get_or_create_collection
    simp [hfind, h]

/-- C3: moving an object into the destination twice equals moving it once
(and leaves it a member of exactly the destination, linked there exactly
once with no duplicate membership); and running the whole Execute
partition a second time with the same cutoff on the resulting scene
changes no object's collection memberships. -/
theorem c3_execute_idempotent :
    (∀ (m : String) (t : ℕ) (s0 : Scene),
      move_object_to_collection m t (move_object_to_collection m t s0)
        = move_object_to_collection m t s0)
    ∧ (∀ (m : String) (t : ℕ) (s0 : Scene), t < s0.collections.length →
        objMembership (move_object_to_collection m t s0) m = [t]
        ∧ ((move_object_to_collection m t s0).collections.getD t cdef).members.count m = 1)
    ∧ (∀ (s : Scene) (ref : Option Object) (c : ℚ) (cn : String) (n : String),
        (s.objects.map Object.name).Nodup →
        objMembership
            (collect_smaller_objects ref c
              (collect_smaller_objects ref c s cn).2 cn).2 n
          = objMembership (collect_smaller_objects ref c s cn).2 n) := by
  refine ⟨move_idem, ?_, ?_⟩
  · intro m t s0 h
    exact ⟨objMembership_move_self m t s0 h, count_move_target m t s0 h⟩
  · intro s ref c cn n hnd
    have hobj := collect_objects_eq ref c s cn
    have hnd' : ((collect_smaller_objects ref c s cn).2.objects.map Object.name).Nodup := by
      rw [hobj]
      exact hnd
    rw [collect_membership ((collect_smaller_objects ref c s cn).2) ref c cn hnd' n]
    by_cases hex : ∃ o ∈ s.objects, o.name = n ∧ collectedP ref c o
    · have hex' : ∃ o ∈ (collect_smaller_objects ref c s cn).2.objects,
          o.name = n ∧ collectedP ref c o := by
        rw [hobj]
        exact hex
      rw [if_pos hex', collect_membership s ref c cn hnd n, if_pos hex,
        gco_fst_second]
    · have hex' : ¬ ∃ o ∈ (collect_smaller_objects ref c s cn).2.objects,
          o.name = n ∧ collectedP ref c o := by
        rw [hobj]
        exact hex
      rw [if_neg hex']

/-- Witness for C3: the double move on a concrete one-collection scene and
the double run on a concrete one-object scene. -/
theorem c3_execute_idempotent_witness :
    (0 < (⟨[], [⟨"Littles", ["A"], true⟩], []⟩ : Scene).collections.length
      ∧ objMembership
          (move_object_to_collection "A" 0 ⟨[], [⟨"Littles", ["A"], true⟩], []⟩) "A" = [0])
    ∧ objMembership
        (collect_smaller_objects none 1
          (collect_smaller_objects none 1 ⟨[tetraObj], [], []⟩ "Littles").2 "Littles").2
        "Tet"
      = objMembership (collect_smaller_objects none 1 ⟨[tetraObj], [], []⟩ "Littles").2
        "Tet" :=
  ⟨⟨by norm_num,
    (c3_execute_idempotent.2.1 "A" 0 ⟨[], [⟨"Littles", ["A"], true⟩], []⟩ (by norm_num)).1⟩,
   c3_execute_idempotent.2.2 ⟨[tetraObj], [], []⟩ none 1 "Littles" "Tet" (by simp)⟩

/-! ## Claim C10: destination collection exists after any Execute run -/

lemma shape_mem_iff (s : Scene) (x : String) (b : Bool) :
    (x, b) ∈ collectionsShape s
      ↔ ∃ col ∈ s.collections, col.name = x ∧ col.hide_viewport = b := by
  simp [collectionsShape, List.mem_map, Prod.ext_iff]

lemma collect_fresh_creates (ref : Option Object) (c : ℚ) (s : Scene) (cn : String)
    (h : s.collections.findIdx? (fun col => col.name == cn) = none) :
    (∃ col ∈ (collect_smaller_objects ref c s cn).2.collections,
      col.name = cn ∧ col.hide_viewport = true)
    ∧ cn ∈ (collect_smaller_objects ref c s cn).2.sceneChildren := by
  have hgsh : collectionsShape (get_or_create_collection cn s).2
      = collectionsShape s ++ [(cn, true)] := by
    unfold get_or_create_collection
    simp [h, collectionsShape]
  have hmem : ((cn : String), true) ∈ collectionsShape (collect_smaller_objects ref c s cn).2 := by
    rw [collect_shape_eq, hgsh]
    simp
  obtain ⟨col, hcol, hn, hh⟩ := (shape_mem_iff _ _ _).mp hmem
  refine ⟨⟨col, hcol, hn, hh⟩, ?_⟩
  rw [collect_children_eq]
  unfold get_or_create_collection
  simp [h]

/-- C10: after any Execute run — including one that collects nothing or
whose every measurement fails — the destination collection exists in the
final scene; if it did not exist beforehand it was created hidden and
linked into the scene children. -/
theorem c10_destination_created (s : Scene) (ref : Option Object) (c : ℚ) (cn : String) :
    (∃ col ∈ (collect_smaller_objects ref c s cn).2.collections, col.name = cn)
    ∧ ((∀ col ∈ s.collections, col.name ≠ cn) →
        (∃ col ∈ (collect_smaller_objects ref c s cn).2.collections,
          col.name = cn ∧ col.hide_viewport = true)
        ∧ cn ∈ (collect_smaller_objects ref c s cn).2.sceneChildren) := by
  constructor
  · cases h : s.collections.findIdx? (fun col => col.name == cn) with
    | some i =>
      have hgco2 : (get_or_create_collection cn s).2 = s := by
        unfold get_or_create_collection
        simp [h]
      have hex : ∃ col ∈ s.collections, (col.name == cn) = true := by
        by_contra hall
        push_neg at hall
        have hnone : s.collections.findIdx? (fun col => col.name == cn) = none :=
          List.findIdx?_eq_none_iff.mpr (fun x hx => by
            have hh := hall x hx
            simpa using hh)
        rw [hnone] at h
        exact Option.noConfusion h
      obtain ⟨col, hcol, hbe⟩ := hex
      have hname : col.name = cn := by simpa using hbe
      have hmem : ((cn : String), col.hide_viewport)
          ∈ collectionsShape (collect_smaller_objects ref c s cn).2 := by
        rw [collect_shape_eq, hgco2]
        exact (shape_mem_iff s cn col.hide_viewport).mpr ⟨col, hcol, hname, rfl⟩
      obtain ⟨col', hcol', hn', _⟩ := (shape_mem_iff _ cn col.hide_viewport).mp hmem
      exact ⟨col', hcol', hn'⟩
    | none =>
      obtain ⟨⟨col, hcol, hn, _⟩, _⟩ := collect_fresh_creates ref c s cn h
      exact ⟨col, hcol, hn⟩
  · intro hfresh
    have h : s.collections.findIdx? (fun col => col.name == cn) = none :=
      List.findIdx?_eq_none_iff.mpr (fun x hx =>
        beq_eq_false_iff_ne.mpr (hfresh x hx))
    exact collect_fresh_creates ref c s cn h

/-- Witness for C10: an Execute run over a scene with no objects (so
nothing is collected) still creates the hidden destination. -/
theorem c10_destination_created_witness :
    (∀ col ∈ (⟨[], [], []⟩ : Scene).collections, col.name ≠ "Littles")
    ∧ ((∃ col ∈ (collect_smaller_objects none 1 ⟨[], [], []⟩ "Littles").2.collections,
          col.name = "Littles" ∧ col.hide_viewport = true)
        ∧ "Littles" ∈ (collect_smaller_objects none 1 ⟨[], [], []⟩ "Littles").2.sceneChildren) :=
  ⟨by simp,
   (c10_destination_created ⟨[], [], []⟩ none 1 "Littles").2 (by simp)⟩

/-! ## Batch-measurement characterization (`analysis.analyze_scene`) -/

/-- The `(name, volume)` pairs of the successfully measured objects. -/
def validOf (l : List Object) : List (String × ℚ) :=
  (l.filter (fun o => (calculate_object_volume o).1)).map
    (fun o => (o.name, (calculate_object_volume o).2.1))

/-- The `(name, reason)` pairs of the failed measurements. -/
def invalidOf (l : List Object) : List (String × String) :=
  (l.filter (fun o => !(calculate_object_volume o).1)).map
    (fun o => (o.name, (calculate_object_volume o).2.2))

/-- The mesh-typed objects of a batch. -/
def meshFilter (l : List Object) : List Object :=
  l.filter (fun o => decide (o.otype = ObjType.MESH))

lemma validOf_append (l1 l2 : List Object) :
    validOf (l1 ++ l2) = validOf l1 ++ validOf l2 := by
  unfold validOf
  rw [List.filter_append, List.map_append]

lemma invalidOf_append (l1 l2 : List Object) :
    invalidOf (l1 ++ l2) = invalidOf l1 ++ invalidOf l2 := by
  unfold invalidOf
  rw [List.filter_append, List.map_append]

lemma validOf_cons_fail (o : Object) (l : List Object)
    (h : (calculate_object_volume o).1 = false) :
    validOf (o :: l) = validOf l := by
  unfold validOf
  rw [List.filter_cons]
  simp [h]

lemma invalidOf_cons_fail (o : Object) (l : List Object)
    (h : (calculate_object_volume o).1 = false) :
    invalidOf (o :: l) = (o.name, (calculate_object_volume o).2.2) :: invalidOf l := by
  unfold invalidOf
  rw [List.filter_cons]
  simp [h]

lemma foldl_analyzeStep :
    ∀ (l : List Object) (acc : List (String × ℚ) × ℕ × ℕ × List (String × String)),
      l.foldl analyzeStep acc
        = (acc.1 ++ validOf l, acc.2.1 + (validOf l).length,
           acc.2.2.1 + (invalidOf l).length, acc.2.2.2 ++ invalidOf l)
  | [], acc => by simp [validOf, invalidOf]
  | o :: l, acc => by
    rw [List.foldl_cons, foldl_analyzeStep l]
    by_cases h : (calculate_object_volume o).1 = true
    · have hv : validOf (o :: l)
          = (o.name, (calculate_object_volume o).2.1) :: validOf l := by
        unfold validOf
        rw [List.filter_cons]
        simp [h]
      have hi : invalidOf (o :: l) = invalidOf l := by
        unfold invalidOf
        rw [List.filter_cons]
        simp [h]
      rw [hv, hi]
      simp only [analyzeStep, if_pos h]
      simp [Prod.ext_iff, List.append_assoc]
      try omega
    · have hfalse : (calculate_object_volume o).1 = false := by
        revert h
        cases (calculate_object_volume o).1 <;> simp
      rw [validOf_cons_fail o l hfalse, invalidOf_cons_fail o l hfalse]
      simp only [analyzeStep, if_neg h]
      simp [Prod.ext_iff, List.append_assoc]
      try omega

lemma analyze_fields (s : Scene) :
    (analyze_scene s).volumes
        = List.insertionSort (fun a b => a.2 ≤ b.2) (validOf (meshFilter s.objects))
    ∧ (analyze_scene s).valid_objects = (validOf (meshFilter s.objects)).length
    ∧ (analyze_scene s).invalid_reasons = invalidOf (meshFilter s.objects)
    ∧ (analyze_scene s).invalid_objects = (invalidOf (meshFilter s.objects)).length
    ∧ (analyze_scene s).total_objects = (meshFilter s.objects).length := by
  unfold analyze_scene meshFilter
  by_cases h0 : (s.objects.filter (fun o => decide (o.otype = ObjType.MESH))).length = 0
  · rw [if_pos h0]
    have he : s.objects.filter (fun o => decide (o.otype = ObjType.MESH)) = [] :=
      List.length_eq_zero.mp h0
    simp [he, validOf, invalidOf, List.insertionSort]
  · rw [if_neg h0]
    rw [foldl_analyzeStep]
    simp only [List.nil_append, Nat.zero_add]
    by_cases h1 : (validOf (s.objects.filter (fun o => decide (o.otype = ObjType.MESH)))).length = 0
    · rw [if_pos h1]
      have he : validOf (s.objects.filter (fun o => decide (o.otype = ObjType.MESH))) = [] :=
        List.length_eq_zero.mp (by simpa using h1)
      simp [he, List.insertionSort]
    · rw [if_neg h1]
      simp

/-! ## Claim C7: a single measurement failure never aborts the batch -/

lemma sceneStep_collections_congr (t : ℕ) (ref : Option Object) (c : ℚ)
    (s1 s2 : Scene) (o : Object) (h : s1.collections = s2.collections) :
    (sceneStep t ref c s1 o).collections = (sceneStep t ref c s2 o).collections := by
  by_cases hcol : collectedP ref c o
  · rw [sceneStep_collected _ _ _ _ _ hcol, sceneStep_collected _ _ _ _ _ hcol]
    unfold move_object_to_collection
    simp [h]
  · rw [sceneStep_not_collected _ _ _ _ _ hcol, sceneStep_not_collected _ _ _ _ _ hcol, h]

lemma foldl_sceneStep_collections_congr (t : ℕ) (ref : Option Object) (c : ℚ) :
    ∀ (l : List Object) (s1 s2 : Scene), s1.collections = s2.collections →
      (l.foldl (sceneStep t ref c) s1).collections
        = (l.foldl (sceneStep t ref c) s2).collections
  | [], s1, s2, h => h
  | o :: l, s1, s2, h => by
    rw [List.foldl_cons, List.foldl_cons]
    exact foldl_sceneStep_collections_congr t ref c l _ _
      (sceneStep_collections_congr t ref c s1 s2 o h)

lemma gco_congr (cn : String) (s1 s2 : Scene)
    (hc : s1.collections = s2.collections) :
    (get_or_create_collection cn s1).1 = (get_or_create_collection cn s2).1
    ∧ (get_or_create_collection cn s1).2.collections
        = (get_or_create_collection cn s2).2.collections := by
  unfold get_or_create_collection
  rw [hc]
  cases h : s2.collections.findIdx? (fun c => c.name == cn) <;> simp [h, hc]

lemma collectedCount_append (ref : Option Object) (c : ℚ) (l1 l2 : List Object) :
    collectedCount ref c (l1 ++ l2) = collectedCount ref c l1 + collectedCount ref c l2 := by
  unfold collectedCount
  rw [List.filter_append, List.length_append]

lemma skippedOf_append (ref : Option Object) (l1 l2 : List Object) :
    skippedOf ref (l1 ++ l2) = skippedOf ref l1 ++ skippedOf ref l2 := by
  unfold skippedOf
  rw [List.filter_append, List.map_append]

lemma meshFilter_append (l1 l2 : List Object) :
    meshFilter (l1 ++ l2) = meshFilter l1 ++ meshFilter l2 := by
  unfold meshFilter
  rw [List.filter_append]

lemma meshFilter_cons_mesh (o : Object) (l : List Object) (h : o.otype = ObjType.MESH) :
    meshFilter (o :: l) = o :: meshFilter l := by
  unfold meshFilter
  rw [List.filter_cons]
  simp [h]

/-- C7: in both batch operations (partitioning and scene analysis) a
single object's measurement failure is recorded as a `(name, reason)`
entry, the object is neither moved nor counted in the valid population,
and all remaining objects are processed exactly as they would be without
it. -/
theorem c7_failure_isolation (s : Scene) (ref : Option Object) (c : ℚ) (cn : String)
    (l1 l2 : List Object) (o : Object)
    (hsplit : s.objects = l1 ++ o :: l2)
    (hmesh : o.otype = ObjType.MESH) (href : some o ≠ ref)
    (hfail : (calculate_object_volume o).1 = false) :
    (collect_smaller_objects ref c s cn).2.collections
        = (collect_smaller_objects ref c { s with objects := l1 ++ l2 } cn).2.collections
    ∧ (collect_smaller_objects ref c s cn).1.collected_count
        = (collect_smaller_objects ref c { s with objects := l1 ++ l2 } cn).1.collected_count
    ∧ (collect_smaller_objects ref c s cn).1.skipped_objects
        = skippedOf ref l1
            ++ (o.name, (calculate_object_volume o).2.2) :: skippedOf ref l2
    ∧ (collect_smaller_objects ref c s cn).1.skipped_count
        = (collect_smaller_objects ref c { s with objects := l1 ++ l2 } cn).1.skipped_count + 1
    ∧ (analyze_scene s).volumes = (analyze_scene { s with objects := l1 ++ l2 }).volumes
    ∧ (analyze_scene s).valid_objects
        = (analyze_scene { s with objects := l1 ++ l2 }).valid_objects
    ∧ (analyze_scene s).invalid_reasons
        = invalidOf (meshFilter l1)
            ++ (o.name, (calculate_object_volume o).2.2) :: invalidOf (meshFilter l2) := by
  have hncol : ¬ collectedP ref c o := by
    intro hcol
    rw [hcol.2.2.1] at hfail
    exact Bool.noConfusion hfail
  have hfP : failP ref o := ⟨hmesh, href, hfail⟩
  have hmesh' : meshFilter s.objects = meshFilter l1 ++ o :: meshFilter l2 := by
    rw [hsplit, meshFilter_append, meshFilter_cons_mesh o l2 hmesh]
  have hmeshB : meshFilter ({ s with objects := l1 ++ l2 } : Scene).objects
      = meshFilter l1 ++ meshFilter l2 := by
    simp only
    rw [meshFilter_append]
  refine ⟨?_, ?_, ?_, ?_, ?_, ?_, ?_⟩
  · unfold collect_smaller_objects
    rw [foldl_collectStep_split, foldl_collectStep_split]
    simp only
    have hgco := gco_congr cn s { s with objects := l1 ++ l2 } rfl
    rw [hsplit, hgco.1]
    rw [List.foldl_append, List.foldl_cons, List.foldl_append]
    rw [sceneStep_not_collected _ _ _ _ _ hncol]
    apply foldl_sceneStep_collections_congr
    apply foldl_sceneStep_collections_congr
    exact hgco.2
  · unfold collect_smaller_objects
    rw [foldl_collectStep_split, foldl_collectStep_split]
    simp only
    rw [foldl_resultsStep, foldl_resultsStep]
    simp only [Nat.zero_add]
    rw [hsplit, collectedCount_append, collectedCount_append, collectedCount_cons,
      if_neg hncol]
    omega
  · unfold collect_smaller_objects
    rw [foldl_collectStep_split]
    simp only
    rw [foldl_resultsStep]
    simp only [List.nil_append]
    rw [hsplit, skippedOf_append, skippedOf_cons, if_pos hfP]
    simp
  · unfold collect_smaller_objects
    rw [foldl_collectStep_split, foldl_collectStep_split]
    simp only
    rw [foldl_resultsStep, foldl_resultsStep]
    simp only [Nat.zero_add]
    rw [hsplit, skippedOf_append, skippedOf_cons, if_pos hfP, skippedOf_append]
    simp [List.length_append]
    try omega
  · rw [(analyze_fields s).1, (analyze_fields _).1, hmesh', hmeshB,
      validOf_append, validOf_append, validOf_cons_fail o _ hfail]
  · rw [(analyze_fields s).2.1, (analyze_fields _).2.1, hmesh', hmeshB,
      validOf_append, validOf_append, validOf_cons_fail o _ hfail]
  · rw [(analyze_fields s).2.2.1, hmesh', invalidOf_append,
      invalidOf_cons_fail o _ hfail]

/-- Witness for C7: a failing flat quad alongside a healthy tetrahedron. -/
theorem c7_failure_isolation_witness :
    (calculate_object_volume flatObj).1 = false
    ∧ (collect_smaller_objects none 1 ⟨[tetraObj, flatObj], [], []⟩ "Littles").1.skipped_objects
        = skippedOf none [tetraObj]
            ++ (flatObj.name, (calculate_object_volume flatObj).2.2) :: skippedOf none [] := by
  have hfail : (calculate_object_volume flatObj).1 = false := by
    norm_num [calculate_object_volume, validate_object_is_mesh,
      validate_mesh_not_empty, validate_volume, flatObj, idMat4, calc_volume,
      faceContribution, fanSum, det3, dot, cross, Mesh.transform, applyMat4,
      Vec3.zero]
  exact ⟨hfail,
    (c7_failure_isolation ⟨[tetraObj, flatObj], [], []⟩ none 1 "Littles"
      [tetraObj] [] flatObj rfl rfl (by simp) hfail).2.2.1⟩
